import Mathlib

set_option maxRecDepth 16000

/-!
Verification development for the PyPO front-end slice: the domain data model
(`src/PyPO/PyPOTypes.py`), the enumeration catalogue (`src/PyPO/Enums.py`),
the reflector-grid bindings (`src/PyPO/BindRefl.py`) and the build script
(`setup.py`).  Python objects are shallowly embedded: fallible operations
return `Except PyErr`, numpy arrays are modelled by their shape together with
an entries function, IEEE-754 binary64 arithmetic is modelled bit-exactly
over scaled integers, and the mutation of Python objects is modelled by
explicit state passing.
-/

/-- Python exceptions raised by the code in this slice, each carrying the
message (or offending name/key) of the raised exception. -/
inductive PyErr where
  | keyError (key : String)
  | indexError (msg : String)
  | attributeError (name : String)
  | valueError (msg : String)
  | typeError (msg : String)
  deriving DecidableEq, Repr

/-- Model of a numpy ndarray: its shape together with a total entries
function over (multi-)indices.  Entries are complex numbers, covering both
the real-valued grid arrays and the complex field/current components. -/
structure NpArray where
  shape : List Nat
  entries : List Nat → ℂ

/-- Model of numpy `.T`: reverses the axis order. -/
def npT (a : NpArray) : NpArray :=
  ⟨a.shape.reverse, fun ix => a.entries ix.reverse⟩

/-- Model of numpy `.conj()`: complex conjugation of every entry. -/
def npConj (a : NpArray) : NpArray :=
  ⟨a.shape, fun ix => star (a.entries ix)⟩

/-- Model of numpy `.conj().T`, the Hermitian transpose used by
`resContainer.H`. -/
def npH (a : NpArray) : NpArray := npT (npConj a)

/-- Python sequence index resolution: a nonnegative index must be below the
length; a negative index counts from the end. -/
def pyIdx (len : Nat) (i : ℤ) : Option Nat :=
  if 0 ≤ i then (if i < (len : ℤ) then some i.toNat else none)
  else (if 0 ≤ i + (len : ℤ) then some (i + (len : ℤ)).toNat else none)

/-- Python `list[i]` with Python index semantics (negative indices count
from the end; out-of-range indices yield `none`, i.e. `IndexError`). -/
def pyListGet {α : Type} (l : List α) (i : ℤ) : Option α :=
  (pyIdx l.length i).bind l.get?

/-- Python `tuple[i]` for the shape tuple accesses in `resContainer.__init__`
(`self.shape[0]`, `self.shape[1]`); a missing position raises
`IndexError: tuple index out of range`. -/
def tupleGet (l : List Nat) (i : Nat) : Except PyErr Nat :=
  match l.get? i with
  | some v => .ok v
  | none => .error (.indexError "tuple index out of range")

/-- Update-or-append on an association list: the model of `setattr` on a
Python object's `__dict__` (an existing attribute is overwritten in place,
a new one is appended in insertion order). -/
def updateAssoc (l : List (String × NpArray)) (k : String) (v : NpArray) :
    List (String × NpArray) :=
  match l with
  | [] => [(k, v)]
  | (k', v') :: rest =>
      if k' = k then (k', v) :: rest else (k', v') :: updateAssoc rest k v

/-- Lookup on an association list: the model of `getattr`. -/
def lookupAssoc (l : List (String × NpArray)) (k : String) : Option NpArray :=
  match l with
  | [] => none
  | (k', v') :: rest => if k' = k then some v' else lookupAssoc rest k

/-- State of a `PyPO.PyPOTypes.resContainer` object after construction:
the `type` tag, the `memlist` of component labels, the recorded `shape` and
`size`, and the component attributes in insertion order. -/
structure resContainer where
  rtype : String
  memlist : List String
  shape : List Nat
  size : Nat
  attrs : List (String × NpArray)

/-- The axis-letter list `ax = ["x", "y", "z"]` of `resContainer.__init__`. -/
def axLetters : List String := ["x", "y", "z"]

/-- The label/assignment loop of `resContainer.__init__`:
`for i, arg in enumerate(args)`, incrementing `n` at every index `i` with
`i % 3 == 0` and `i != 0`, appending the label `type[n] + ax[i - 3*n]` to
`memlist` and `setattr`-ing the argument under that label.  String indexing
`type[n]` raises `IndexError` when `n` is out of range. -/
def initLoop (t : String) :
    Nat → Nat → List NpArray → List String → List (String × NpArray) →
    Except PyErr (List String × List (String × NpArray))
  | _, _, [], mem, ats => .ok (mem, ats)
  | i, n, arg :: rest, mem, ats =>
      let n' := if i % 3 = 0 ∧ i ≠ 0 then n + 1 else n
      match t.data.get? n' with
      | none => .error (.indexError "string index out of range")
      | some ch =>
          match axLetters.get? (i - 3 * n') with
          | none => .error (.indexError "list index out of range")
          | some axs =>
              let label := String.mk [ch] ++ axs
              initLoop t (i + 1) n' rest (mem ++ [label]) (updateAssoc ats label arg)

/-- `resContainer.__init__(*args, restype=None)`: sets `type` (default
`"EH"`), records `shape = args[0].shape` and `size = shape[0] * shape[1]`,
then runs the label/assignment loop over all positional arguments. -/
def resInit (restype : Option String) (args : List NpArray) :
    Except PyErr resContainer := do
  let t := restype.getD "EH"
  let a0 ← match args.get? 0 with
    | some a => pure a
    | none => throw (PyErr.indexError "tuple index out of range")
  let shape := a0.shape
  let s0 ← tupleGet shape 0
  let s1 ← tupleGet shape 1
  let (mem, ats) ← initLoop t 0 0 args [] []
  pure ⟨t, mem, shape, s0 * s1, ats⟩

/-- `resContainer.__getitem__(idx)`: looks up `self.memlist[idx]` and returns
the attribute stored under that label; any failure inside the `try` block is
re-raised as `IndexError: Index out of range: {idx}`. -/
def resGetitem (c : resContainer) (idx : ℤ) : Except PyErr NpArray :=
  match pyListGet c.memlist idx with
  | none => .error (.indexError ("Index out of range: " ++ toString idx))
  | some lbl =>
      match lookupAssoc c.attrs lbl with
      | none => .error (.indexError ("Index out of range: " ++ toString idx))
      | some v => .ok v

/-- `resContainer.__setitem__(idx, item)`: looks up `self.memlist[idx]` and
`setattr`s `item` under that label; a failed lookup is re-raised as
`IndexError: Index out of range: {idx}`. -/
def resSetitem (c : resContainer) (idx : ℤ) (item : NpArray) :
    Except PyErr resContainer :=
  match pyListGet c.memlist idx with
  | none => .error (.indexError ("Index out of range: " ++ toString idx))
  | some lbl => .ok { c with attrs := updateAssoc c.attrs lbl item }

/-- `resContainer.T()`: `for i in range(6): self[i] = self[i].T`, then
`return self`.  In-place mutation is modelled by threading the container. -/
def resT (c : resContainer) : Except PyErr resContainer :=
  (List.range 6).foldlM
    (fun acc i => do
      let v ← resGetitem acc (i : ℤ)
      resSetitem acc (i : ℤ) (npT v))
    c

/-- `resContainer.H()`: `for i in range(6): self[i] = self[i].conj().T`,
then `return self`. -/
def resH (c : resContainer) : Except PyErr resContainer :=
  (List.range 6).foldlM
    (fun acc i => do
      let v ← resGetitem acc (i : ℤ)
      resSetitem acc (i : ℤ) (npH v))
    c

/-- The classes defined by the module `PyPO.PyPOTypes` (its complete
top-level namespace, in source order). -/
def pyPOTypesMembers : List String :=
  ["resContainer", "currents", "fields", "po_currents", "rfield",
   "scalarfield", "reflGrids", "frame"]

/-- `PyPO.PyPOTypes.reflGrids`: the seven co-indexed grid arrays (points,
normals, area weights), stored as given.  Arrays are modelled flat, as
lists of double-precision values. -/
structure reflGrids where
  x : List ℚ
  y : List ℚ
  z : List ℚ
  nx : List ℚ
  ny : List ℚ
  nz : List ℚ
  area : List ℚ

/-- An IEEE-754 binary64 value (positive normal range), represented exactly
as `m * 2 ^ e` with the invariant `2^52 ≤ m < 2^53` for values produced by
`flRat`.  All unit-conversion constants in `Enums.py` are positive normal
doubles, so this fragment of binary64 suffices. -/
structure F64 where
  m : ℕ
  e : ℤ
  deriving DecidableEq, Repr

/-- Fuel-driven kernel of binary64 rounding: the state `(a, b, e)` denotes
the exact value `(a / b) * 2 ^ e`; the fraction is rescaled until
`2^52 ≤ a / b < 2^53` and then rounded to nearest, ties to even, with a
carry out of `2^53` renormalised. -/
def flLoop : ℕ → ℕ → ℕ → ℤ → F64
  | 0, _, _, _ => ⟨0, 0⟩
  | fuel + 1, a, b, e =>
      if a < 4503599627370496 * b then flLoop fuel (2 * a) b (e - 1)
      else if 9007199254740992 * b ≤ a then flLoop fuel a (2 * b) (e + 1)
      else
        let n := a / b
        let r := a % b
        let m := if b < 2 * r then n + 1
          else if 2 * r < b then n
          else if n % 2 = 0 then n else n + 1
        if m = 9007199254740992 then ⟨4503599627370496, e + 1⟩ else ⟨m, e⟩

/-- Round the positive rational `(a / b) * 2 ^ e` to the nearest binary64
value (ties to even).  400 units of fuel cover every magnitude occurring in
the enumeration catalogue with a wide margin. -/
def flRat (a b : ℕ) (e : ℤ) : F64 := flLoop 400 a b e

/-- The exact rational value of a binary64 datum. -/
def F64.toRat (x : F64) : ℚ := (x.m : ℚ) * (2 : ℚ) ^ x.e

/-- Binary64 multiplication: the exact product, correctly rounded. -/
def fmul (x y : F64) : F64 := flRat (x.m * y.m) 1 (x.e + y.e)

/-- Binary64 division: the exact quotient, correctly rounded. -/
def fdiv (x y : F64) : F64 := flRat x.m y.m (x.e - y.e)

/-- Modelled from the spec: `numpy.pi` (numpy is a third-party boundary of
this slice), the IEEE-754 binary64 value nearest to π, namely
`7074237752028440 * 2 ^ (-51) = 3.141592653589793115997963...`. -/
def np_pi : F64 := ⟨7074237752028440, -51⟩

/-- `Units.M = (1e3, "spatial")`: factor of the `M` member. -/
def M_f : F64 := flRat 1000 1 0

/-- `Units.CM = (1e-2*M[0], "spatial")`. -/
def CM_f : F64 := fmul (flRat 1 100 0) M_f

/-- `Units.MM = (1e-3*M[0], "spatial")`. -/
def MM_f : F64 := fmul (flRat 1 1000 0) M_f

/-- `Units.UM = (1e-6*M[0], "spatial")`. -/
def UM_f : F64 := fmul (flRat 1 1000000 0) M_f

/-- `Units.NM = (1e-9*M[0], "spatial")`. -/
def NM_f : F64 := fmul (flRat 1 1000000000 0) M_f

/-- `Units.IN = (25.4*MM[0], "spatial")`. -/
def IN_f : F64 := fmul (flRat 254 10 0) MM_f

/-- `Units.MIL = (IN[0]*1e-3, "spatial")`. -/
def MIL_f : F64 := fmul IN_f (flRat 1 1000 0)

/-- `Units.THOU = (IN[0]*1e-3, "spatial")`. -/
def THOU_f : F64 := fmul IN_f (flRat 1 1000 0)

/-- `Units.UIN = (IN[0]*1e-6, "spatial")`. -/
def UIN_f : F64 := fmul IN_f (flRat 1 1000000 0)

/-- `Units.FT = (12*IN[0], "spatial")` (the integer 12 converts exactly). -/
def FT_f : F64 := fmul (flRat 12 1 0) IN_f

/-- `Units.DEG = (1., "angular")`. -/
def DEG_f : F64 := flRat 1 1 0

/-- `Units.AM = (60., "angular")`. -/
def AM_f : F64 := flRat 60 1 0

/-- `Units.AS = (3600., "angular")`. -/
def AS_f : F64 := flRat 3600 1 0

/-- `Units.RAD = (180/pi*DEG[0], "angular")`, evaluated left to right:
the rounded quotient `180 / numpy.pi`, then multiplied by `DEG[0] = 1.0`. -/
def RAD_f : F64 := fmul (fdiv (flRat 180 1 0) np_pi) DEG_f

/-- `Units.MRAD = (RAD[0]*1e-3, "angular")`. -/
def MRAD_f : F64 := fmul RAD_f (flRat 1 1000 0)

/-- `Units.URAD = (RAD[0]*1e-6, "angular")`. -/
def URAD_f : F64 := fmul RAD_f (flRat 1 1000000 0)

/-- The members of the tuple-valued enumeration `Units` of `Enums.py`. -/
inductive UnitsEnum where
  | M | CM | MM | UM | NM | IN | MIL | THOU | UIN | FT
  | DEG | AM | AS | RAD | MRAD | URAD
  deriving DecidableEq, Repr

/-- `member.value` of a `Units` member: the `(factor, category)` tuple,
with the factor as the binary64 constant computed at class-definition
time. -/
def UnitsEnum.value : UnitsEnum → F64 × String
  | .M => (M_f, "spatial")
  | .CM => (CM_f, "spatial")
  | .MM => (MM_f, "spatial")
  | .UM => (UM_f, "spatial")
  | .NM => (NM_f, "spatial")
  | .IN => (IN_f, "spatial")
  | .MIL => (MIL_f, "spatial")
  | .THOU => (THOU_f, "spatial")
  | .UIN => (UIN_f, "spatial")
  | .FT => (FT_f, "spatial")
  | .DEG => (DEG_f, "angular")
  | .AM => (AM_f, "angular")
  | .AS => (AS_f, "angular")
  | .RAD => (RAD_f, "angular")
  | .MRAD => (MRAD_f, "angular")
  | .URAD => (URAD_f, "angular")

/-- The conversion factor `member.value[0]` of a `Units` member, as the
exact rational value of the stored binary64 constant. -/
def UnitsEnum.factor (u : UnitsEnum) : ℚ := (u.value.1).toRat

/-- The category `member.value[1]` of a `Units` member. -/
def UnitsEnum.category (u : UnitsEnum) : String := u.value.2

/-- `CustomEnumTuple.__rmul__`: `number * member` evaluates to
`number * member.value[0]`.  The float arithmetic is idealised over exact
rationals (the claims about it are stated up to floating-point
tolerance). -/
def UnitsEnum.rmul (u : UnitsEnum) (other : ℚ) : ℚ := other * u.factor

/-- `CustomEnumTuple.rdiv`: `member.rdiv(number)` evaluates to
`number / member.value[0]` (idealised over exact rationals). -/
def UnitsEnum.rdiv (u : UnitsEnum) (other : ℚ) : ℚ := other / u.factor

/-- The members of the string-valued enumeration `Objects` of `Enums.py`. -/
inductive Objects where
  | ELEMENT | GROUP | FRAME | FIELD | CURRENT
  deriving DecidableEq, Repr

/-- `member.value` of an `Objects` member. -/
def Objects.value : Objects → String
  | .ELEMENT => "elements"
  | .GROUP => "groups"
  | .FRAME => "frames"
  | .FIELD => "fields"
  | .CURRENT => "currents"

/-- The outcome of one Python reflected-operator slot: either a numeric
value or the `NotImplemented` sentinel. -/
inductive DunderOut where
  | val (q : ℚ)
  | notImpl
  deriving DecidableEq

/-- `CustomEnumString.__rmul__`: returns `NotImplemented` for every
operand. -/
def Objects.rmul (_m : Objects) (_other : ℚ) : DunderOut := .notImpl

/-- `CustomEnumString.__rtruediv__`: returns `NotImplemented` for every
operand. -/
def Objects.rtruediv (_m : Objects) (_other : ℚ) : DunderOut := .notImpl

/-- The left operand's slot: a Python number's `__mul__`/`__truediv__`
returns `NotImplemented` on a non-numeric right operand such as an enum
member (host-language numeric protocol, a boundary of this slice). -/
def numOpObjects (_n : ℚ) (_m : Objects) : DunderOut := .notImpl

/-- Python's binary-operator protocol for `number * member` on an `Objects`
member: try the number's `__mul__`, then the member's `__rmul__`; if both
return `NotImplemented`, the operation is reported unsupported
(`TypeError`), never a numeric result or a coercion. -/
def pyMulNumObjects (n : ℚ) (m : Objects) : Except PyErr ℚ :=
  match numOpObjects n m with
  | .val q => .ok q
  | .notImpl =>
      match m.rmul n with
      | .val q => .ok q
      | .notImpl => .error (.typeError "unsupported operand type")

/-- Python's binary-operator protocol for `number / member` on an `Objects`
member, via `__truediv__` then `__rtruediv__`. -/
def pyDivNumObjects (n : ℚ) (m : Objects) : Except PyErr ℚ :=
  match numOpObjects n m with
  | .val q => .ok q
  | .notImpl =>
      match m.rtruediv n with
      | .val q => .ok q
      | .notImpl => .error (.typeError "unsupported operand type")

/-- The reflector parameter record (`reflDict`) passed to the grid
bindings, restricted to the keys this slice reads: `gridsize`, `po_points`,
`name` and `gmode`.  A `none` field models an absent key. -/
structure ReflDict where
  gridsize : Option (Nat × Nat)
  po_points : Option (Nat × Nat)
  name : Option String
  gmode : Option String

/-- Modelled from the spec: the native engine boundary (§4.4, §6 of the
spec; the compiled engine is outside this slice).  The engine's
`generateGrid` entry point writes, for each index below the requested
size, one double into each of the seven component buffers of the
preallocated result container; the `generatePOGrid` entry point does the
same for the PO grid and quadrature-weight buffers. -/
structure Engine where
  gx : ReflDict → Bool → Bool → Nat → ℚ
  gy : ReflDict → Bool → Bool → Nat → ℚ
  gz : ReflDict → Bool → Bool → Nat → ℚ
  gnx : ReflDict → Bool → Bool → Nat → ℚ
  gny : ReflDict → Bool → Bool → Nat → ℚ
  gnz : ReflDict → Bool → Bool → Nat → ℚ
  garea : ReflDict → Bool → Bool → Nat → ℚ
  px : ReflDict → Bool → Nat → ℚ
  py : ReflDict → Bool → Nat → ℚ
  pz : ReflDict → Bool → Nat → ℚ
  pnx : ReflDict → Bool → Nat → ℚ
  pny : ReflDict → Bool → Nat → ℚ
  pnz : ReflDict → Bool → Nat → ℚ
  parea : ReflDict → Bool → Nat → ℚ
  pw : ReflDict → Bool → Nat → ℚ

/-- Modelled from the spec (§4.3): the native result container
(`PyPO.Structs.reflcontainer`, outside this slice), allocated for a
requested number of elements at double precision and filled by the
engine. -/
structure reflcontainerM where
  cx : List ℚ
  cy : List ℚ
  cz : List ℚ
  cnx : List ℚ
  cny : List ℚ
  cnz : List ℚ
  carea : List ℚ

/-- Modelled from the spec (§4.3, §4.4): `allocate_reflcontainer` for
`size` elements followed by the engine's `generateGrid` entry point
writing `size` values per component into the container. -/
def fillContainer (eng : Engine) (rec : ReflDict) (transform spheric : Bool)
    (size : Nat) : reflcontainerM :=
  ⟨(List.range size).map (eng.gx rec transform spheric),
   (List.range size).map (eng.gy rec transform spheric),
   (List.range size).map (eng.gz rec transform spheric),
   (List.range size).map (eng.gnx rec transform spheric),
   (List.range size).map (eng.gny rec transform spheric),
   (List.range size).map (eng.gnz rec transform spheric),
   (List.range size).map (eng.garea rec transform spheric)⟩

/-- Modelled from the spec (§4.3): `BindUtils.creflToObj` (outside this
slice) converts a filled native container into a `reflGrids` object with
the shape taken from the caller; reshaping preserves the element count, so
with arrays modelled flat it passes the seven buffers through. -/
def creflToObj (c : reflcontainerM) (_shape : Nat × Nat) : reflGrids :=
  ⟨c.cx, c.cy, c.cz, c.cnx, c.cny, c.cnz, c.carea⟩

/-- `BindRefl.generateGrid(reflparams_py, transform=True, spheric=True)`.
The engine handle stands for a successfully loaded shared library
(`loadRefllib`); the second component of the result lists the native entry
points invoked, in order.  Reading a missing `gridsize` key raises
`KeyError`. -/
def generateGrid (eng : Engine) (rec : ReflDict) (transform spheric : Bool) :
    Except PyErr reflGrids × List String :=
  match rec.gridsize with
  | none => (.error (.keyError "gridsize"), [])
  | some gs =>
      let size := gs.1 * gs.2
      let cont := fillContainer eng rec transform spheric size
      (.ok (creflToObj cont gs), ["generateGrid"])

/-- Modelled from the spec (§4.4): the PO-grid result object bundling the
quadrature grid, the weights array, the `gmode` tag and the surface name.
NOTE: the source instantiates `PTypes.po_grids()`, but the module
`PyPO.PyPOTypes` defines no class named `po_grids` (see
`pyPOTypesMembers`), so this object type exists only in the spec. -/
structure poGridsObj where
  grid : reflGrids
  weights : List ℚ
  mode : String
  surf : String

/-- Modelled from the spec (§4.3, §4.4): the engine's `generatePOGrid`
entry point writing `size` values per component into the result
container. -/
def fillPOContainer (eng : Engine) (rec : ReflDict) (transform : Bool)
    (size : Nat) : reflcontainerM :=
  ⟨(List.range size).map (eng.px rec transform),
   (List.range size).map (eng.py rec transform),
   (List.range size).map (eng.pz rec transform),
   (List.range size).map (eng.pnx rec transform),
   (List.range size).map (eng.pny rec transform),
   (List.range size).map (eng.pnz rec transform),
   (List.range size).map (eng.parea rec transform)⟩

/-- Modelled from the spec (§4.4): `creflToObj` with a flat integer shape,
as used on the PO path (`creflToObj(res[0], size, np.float64)`). -/
def creflToObjN (c : reflcontainerM) (_size : Nat) : reflGrids :=
  ⟨c.cx, c.cy, c.cz, c.cnx, c.cny, c.cnz, c.carea⟩

/-- Modelled from the spec (§4.3): `BindUtils.cweightsToObj` converts the
native quadrature-weights buffer into a host-level array with the shape
(`po_points`) taken from the caller; with arrays modelled flat it passes
the buffer through. -/
def cweightsToObj (w : List ℚ) (_po_points : Nat × Nat) : List ℚ := w

/-- `BindRefl.generatePOGrid(reflparams_py, transform=True)`.  After the
engine library is loaded, a record lacking `po_points` raises
`ValueError` mentioning the key and the record's `name`; otherwise the
source instantiates `PTypes.po_grids()`, an attribute lookup on the
`PyPO.PyPOTypes` module, which fails with `AttributeError` because that
module defines no `po_grids` class.  The branch guarded by the (never
satisfied) membership test transcribes the remainder of the source
(native call, grid/weights conversion, `gmode`/`name` attachment),
modelled from the spec.  The second result component lists the native
entry points invoked, in order. -/
def generatePOGrid (eng : Engine) (rec : ReflDict) (transform : Bool) :
    Except PyErr poGridsObj × List String :=
  match rec.po_points with
  | none =>
      match rec.name with
      | none => (.error (.keyError "name"), [])
      | some nm =>
          (.error (.valueError
            ("\"po_points\" not defined on " ++ nm ++
             ". Cannot generate PO grid.")), [])
  | some pp =>
      let size := pp.1 * pp.2
      if "po_grids" ∈ pyPOTypesMembers then
        match rec.gmode with
        | none => (.error (.keyError "gmode"), ["generatePOGrid"])
        | some mode =>
            match rec.name with
            | none => (.error (.keyError "name"), ["generatePOGrid"])
            | some nm =>
                (.ok ⟨creflToObjN (fillPOContainer eng rec transform size) size,
                      cweightsToObj ((List.range size).map (eng.pw rec transform)) pp,
                      mode, nm⟩, ["generatePOGrid"])
      else
        (.error (.attributeError
          "module PyPO.PyPOTypes has no attribute po_grids"), [])

/-- Python `sub in s` (substring containment) on character lists, used for
the marker test `'__version__ =' in line` of `setup.py`. -/
def hasSub (p l : List Char) : Bool :=
  l.tails.any (fun t => p.isPrefixOf t)

/-- Python `str.split(sep)` for a single-character separator, used for
`line.split('=')` in `setup.py`: splits at every occurrence, keeping empty
pieces, and always returns at least one piece. -/
def splitOnChar (c : Char) (l : List Char) : List (List Char) :=
  l.foldr
    (fun x acc => if x = c then [] :: acc else (x :: acc.headI) :: acc.tail)
    [[]]

/-- Strip every leading and trailing character belonging to `cs`, the model
of Python `str.strip` with and without an argument. -/
def stripEnds (cs : List Char) (l : List Char) : List Char :=
  (((l.dropWhile (· ∈ cs)).reverse.dropWhile (· ∈ cs))).reverse

/-- The whitespace characters removed by Python `str.strip()` (space, tab,
newline, carriage return, vertical tab, form feed). -/
def wsChars : List Char := [' ', '\t', '\n', '\r', Char.ofNat 11, Char.ofNat 12]

/-- The characters removed by `str.strip("'\"")`. -/
def quoteChars : List Char := [Char.ofNat 39, '"']

/-- The marker scanned for by the version-resolution loop of `setup.py`. -/
def versionMarker : String := "__version__ ="

/-- Version resolution of `setup.py`: the version defaults to `'0.0.0'`;
the first line containing `'__version__ ='` (if any) determines it as
`line.split('=')[-1].strip().strip("'\"")`. -/
def resolveVersion (lines : List String) : String :=
  match lines.find? (fun l => hasSub versionMarker.data l.data) with
  | some l =>
      String.mk (stripEnds quoteChars
        (stripEnds wsChars ((splitOnChar '=' l.data).getLastD [])))
  | none => "0.0.0"

/-- The component labels a 6-argument `resContainer.__init__` produces for
`restype="EH"` (the `fields` wrapper and the default). -/
def ehLabels : List String := ["Ex", "Ey", "Ez", "Hx", "Hy", "Hz"]

/-- The component labels a 6-argument `resContainer.__init__` produces for
`restype="JM"` (the `currents` wrapper). -/
def jmLabels : List String := ["Jx", "Jy", "Jz", "Mx", "My", "Mz"]

/-- The `ValueError` message raised by `generatePOGrid` on a record lacking
`po_points`. -/
def poPointsMsg (nm : String) : String :=
  "\"po_points\" not defined on " ++ nm ++ ". Cannot generate PO grid."

/-- A concrete engine (all native outputs zero), used to instantiate the
engine boundary in witnesses. -/
def engZero : Engine :=
  ⟨fun _ _ _ _ => 0, fun _ _ _ _ => 0, fun _ _ _ _ => 0, fun _ _ _ _ => 0,
   fun _ _ _ _ => 0, fun _ _ _ _ => 0, fun _ _ _ _ => 0,
   fun _ _ _ => 0, fun _ _ _ => 0, fun _ _ _ => 0, fun _ _ _ => 0,
   fun _ _ _ => 0, fun _ _ _ => 0, fun _ _ _ => 0, fun _ _ _ => 0⟩

/-- A concrete reflector record with all four keys present. -/
def recFull : ReflDict := ⟨some (4, 5), some (3, 3), some "paraboloid", some "uv"⟩

/-- A concrete reflector record lacking the `po_points` key. -/
def recNoPO : ReflDict := ⟨some (4, 5), none, some "parabola_refl", some "uv"⟩

/-- A concrete reflector record with `gridsize = (4, 5)`. -/
def recGrid45 : ReflDict := ⟨some (4, 5), none, some "m1", none⟩

/-- A concrete 1-by-1 array with constant entry `k`, used in witnesses. -/
def cexArr (k : ℕ) : NpArray := ⟨[1, 1], fun _ => (k : ℂ)⟩

/-- The container `resContainer.__init__` builds from
`cexArr 0, ..., cexArr 5` with `restype="EH"`. -/
def cexCont : resContainer :=
  ⟨"EH", ehLabels, [1, 1], 1,
   [("Ex", cexArr 0), ("Ey", cexArr 1), ("Ez", cexArr 2),
    ("Hx", cexArr 3), ("Hy", cexArr 4), ("Hz", cexArr 5)]⟩

/-- A single-quote character (ASCII 39), used to build version-file lines. -/
def sqChar : Char := Char.ofNat 39

/-- A concrete well-formed version line, `__version__ = '2.4.1'`. -/
def versionLine : String :=
  "__version__ = " ++ String.mk [sqChar] ++ "2.4.1" ++ String.mk [sqChar]

theorem npT_npT (a : NpArray) : npT (npT a) = a := by
  cases a
  simp [npT]

theorem npH_npH (a : NpArray) : npH (npH a) = a := by
  cases a
  simp [npH, npT, npConj]

theorem M_f_eq : M_f = ⟨8796093022208000, -43⟩ := rfl

theorem CM_f_eq : CM_f = ⟨5629499534213120, -49⟩ := rfl

theorem MM_f_eq : MM_f = ⟨4503599627370496, -52⟩ := rfl

theorem UM_f_eq : UM_f = ⟨4611686018427388, -62⟩ := rfl

theorem NM_f_eq : NM_f = ⟨4722366482869646, -72⟩ := rfl

theorem IN_f_eq : IN_f = ⟨7149464408450662, -48⟩ := rfl

theorem MIL_f_eq : MIL_f = ⟨7321051554253478, -58⟩ := rfl

theorem THOU_f_eq : THOU_f = ⟨7321051554253478, -58⟩ := rfl

theorem UIN_f_eq : UIN_f = ⟨7496756791555561, -68⟩ := rfl

theorem FT_f_eq : FT_f = ⟨5362098306337996, -44⟩ := rfl

theorem DEG_f_eq : DEG_f = ⟨4503599627370496, -52⟩ := rfl

theorem AM_f_eq : AM_f = ⟨8444249301319680, -47⟩ := rfl

theorem AS_f_eq : AS_f = ⟨7916483719987200, -41⟩ := rfl

theorem RAD_f_eq : RAD_f = ⟨8063664102031864, -47⟩ := rfl

theorem MRAD_f_eq : MRAD_f = ⟨8257192040480629, -57⟩ := rfl

theorem URAD_f_eq : URAD_f = ⟨8455364649452163, -67⟩ := rfl

theorem UnitsEnum.factor_pos (u : UnitsEnum) : 0 < u.factor := by
  cases u <;>
    simp only [UnitsEnum.factor, UnitsEnum.value, F64.toRat,
      M_f_eq, CM_f_eq, MM_f_eq, UM_f_eq, NM_f_eq, IN_f_eq, MIL_f_eq,
      THOU_f_eq, UIN_f_eq, FT_f_eq, DEG_f_eq, AM_f_eq, AS_f_eq, RAD_f_eq,
      MRAD_f_eq, URAD_f_eq] <;>
    positivity

/-- C1: the claim states that for a record containing `gridsize`, `name`,
`po_points` and `gmode`, `generatePOGrid` returns a PO-grid object bundling
grid, weights, mode and surface name.  The code cannot do so: it
instantiates `PTypes.po_grids()`, and the module `PyPO.PyPOTypes` defines
no class `po_grids` (it defines `po_currents`), so every call on such a
record raises `AttributeError` after the precondition check and before any
native call (the invoked-natives trace stays empty). -/
theorem claim_C1 (eng : Engine) (transform : Bool) :
    generatePOGrid eng recFull transform
      = (.error (.attributeError "module PyPO.PyPOTypes has no attribute po_grids"), [])
    ∧ "po_grids" ∉ pyPOTypesMembers
    ∧ "po_currents" ∈ pyPOTypesMembers :=
  ⟨rfl, by decide, by decide⟩

/-- C2: for every spatial `Units` member `U` and value `v`, converting `v`
out of the base unit with the `rdiv` helper (`v / U.factor`) and then back
with `U.__rmul__` (`* U.factor`) is the identity; the float arithmetic is
idealised over exact rationals, which is the content of the claim's
"within floating-point tolerance". -/
theorem claim_C2 (u : UnitsEnum) (hu : u.category = "spatial") (v : ℚ) :
    u.rmul (u.rdiv v) = v := by
  have hf : u.factor ≠ 0 := ne_of_gt (UnitsEnum.factor_pos u)
  unfold UnitsEnum.rmul UnitsEnum.rdiv
  field_simp

theorem claim_C2_witness :
    UnitsEnum.CM.category = "spatial"
    ∧ UnitsEnum.CM.rmul (UnitsEnum.CM.rdiv 5) = 5 :=
  ⟨rfl, claim_C2 UnitsEnum.CM rfl 5⟩

/-- C8: multiplication and true division between a plain number and an
`Objects` (string-valued) member yield the explicit unsupported-operation
outcome: both reflected slots return `NotImplemented`, so the full operator
protocol reports `TypeError` rather than producing a numeric result or a
coercion. -/
theorem claim_C8 (n : ℚ) (m : Objects) :
    m.rmul n = .notImpl ∧ m.rtruediv n = .notImpl
    ∧ pyMulNumObjects n m = .error (.typeError "unsupported operand type")
    ∧ pyDivNumObjects n m = .error (.typeError "unsupported operand type") :=
  ⟨rfl, rfl, rfl, rfl⟩

/-- C9 counterexample: three of the listed decimal results are not
reproduced exactly.  The binary64 value nearest `2.54e-5` is
`7496756791555562 * 2^(-68)`, but the code computes `UIN` as
`7496756791555561 * 2^(-68)` (= 2.5399999999999997e-05); the value nearest
`304.8` is `5362098306337997 * 2^(-44)`, but `FT` is
`5362098306337996 * 2^(-44)` (= 304.79999999999995); the value nearest
`0.05729577951308232` is `8257192040480628 * 2^(-57)`, but `MRAD` is
`8257192040480629 * 2^(-57)` (= 0.057295779513082325). -/
theorem claim_C9_cex :
    UIN_f ≠ flRat 254 10000000 0
    ∧ FT_f ≠ flRat 3048 10 0
    ∧ MRAD_f ≠ flRat 5729577951308232 100000000000000000 0 :=
  ⟨by decide, by decide, by decide⟩

/-- C9 (amended): of the derived `Units` factors, IN, MIL, THOU, RAD and
URAD equal the binary64 values of the listed decimals exactly; UIN, FT and
MRAD each differ from the listed decimal by one unit in the last place,
being exactly `7496756791555561 * 2^(-68)` (2.5399999999999997e-05),
`5362098306337996 * 2^(-44)` (304.79999999999995) and
`8257192040480629 * 2^(-57)` (0.057295779513082325). -/
theorem claim_C9 :
    UnitsEnum.IN.value.1 = flRat 254 10 0
    ∧ UnitsEnum.MIL.value.1 = flRat 254 10000 0
    ∧ UnitsEnum.THOU.value.1 = flRat 254 10000 0
    ∧ UnitsEnum.RAD.value.1 = flRat 5729577951308232 100000000000000 0
    ∧ UnitsEnum.URAD.value.1 = flRat 5729577951308232 100000000000000000000 0
    ∧ UnitsEnum.UIN.value.1 = ⟨7496756791555561, -68⟩
    ∧ UnitsEnum.FT.value.1 = ⟨5362098306337996, -44⟩
    ∧ UnitsEnum.MRAD.value.1 = ⟨8257192040480629, -57⟩ :=
  ⟨by decide, by decide, by decide, by decide, by decide, by decide, by decide,
   by decide⟩

theorem strData_append (a b : String) : (a ++ b).data = a.data ++ b.data := rfl

theorem splitOnChar_cons (c x : Char) (xs : List Char) :
    splitOnChar c (x :: xs) = if x = c then [] :: splitOnChar c xs
      else (x :: (splitOnChar c xs).headI) :: (splitOnChar c xs).tail := rfl

theorem splitOnChar_no_sep {c : Char} {l : List Char} (h : c ∉ l) :
    splitOnChar c l = [l] := by
  induction l with
  | nil => rfl
  | cons x xs ih =>
      have hx : ¬(x = c) := fun e => h (by simp [e])
      have hxs : c ∉ xs := fun m => h (List.mem_cons_of_mem _ m)
      rw [splitOnChar_cons, if_neg hx, ih hxs]
      rfl

theorem splitOnChar_split (c : Char) (pre post : List Char)
    (h1 : c ∉ pre) (h2 : c ∉ post) :
    splitOnChar c (pre ++ c :: post) = [pre, post] := by
  induction pre with
  | nil =>
      rw [List.nil_append, splitOnChar_cons, if_pos rfl, splitOnChar_no_sep h2]
  | cons x xs ih =>
      have hx : ¬(x = c) := fun e => h1 (by simp [e])
      have hxs : c ∉ xs := fun m => h1 (List.mem_cons_of_mem _ m)
      rw [List.cons_append, splitOnChar_cons, if_neg hx, ih hxs]
      rfl

/-- C3: calling `generatePOGrid` on a record lacking `po_points` (with the
engine library loaded) fails with `ValueError` before any native entry
point is invoked (the trace component is empty); the message contains both
the missing key name and the record's `name` value; and the outcome depends
on nothing else in the record (any engine, transform flag and record with
the same `name` and missing `po_points` produces the identical outcome). -/
theorem claim_C3 (eng : Engine) (rec : ReflDict) (transform : Bool)
    (nm : String) (h1 : rec.po_points = none) (h2 : rec.name = some nm) :
    generatePOGrid eng rec transform = (.error (.valueError (poPointsMsg nm)), [])
    ∧ "po_points".data <:+: (poPointsMsg nm).data
    ∧ nm.data <:+: (poPointsMsg nm).data
    ∧ ∀ (eng2 : Engine) (rec2 : ReflDict) (t2 : Bool),
        rec2.po_points = none → rec2.name = some nm →
        generatePOGrid eng2 rec2 t2 = generatePOGrid eng rec transform := by
  have hmsg : (poPointsMsg nm).data
      = "\"po_points\" not defined on ".data ++ nm.data
        ++ ". Cannot generate PO grid.".data := by
    simp [poPointsMsg, strData_append]
  have hA : "\"po_points\" not defined on ".data
      = ['"'] ++ "po_points".data ++ "\" not defined on ".data := by decide
  refine ⟨?_, ?_, ?_, ?_⟩
  · simp [generatePOGrid, h1, h2, poPointsMsg]
  · refine ⟨['"'], "\" not defined on ".data ++ nm.data
      ++ ". Cannot generate PO grid.".data, ?_⟩
    rw [hmsg, hA]
    simp [List.append_assoc]
  · refine ⟨"\"po_points\" not defined on ".data,
      ". Cannot generate PO grid.".data, ?_⟩
    rw [hmsg]
  · intro eng2 rec2 t2 hp hn
    simp [generatePOGrid, h1, h2, hp, hn]

theorem claim_C3_witness :
    recNoPO.po_points = none
    ∧ generatePOGrid engZero recNoPO true
        = (.error (.valueError (poPointsMsg "parabola_refl")), [])
    ∧ "po_points".data <:+: (poPointsMsg "parabola_refl").data
    ∧ "parabola_refl".data <:+: (poPointsMsg "parabola_refl").data := by
  have h := claim_C3 engZero recNoPO true "parabola_refl" rfl rfl
  exact ⟨rfl, h.1, h.2.1, h.2.2.1⟩

/-- C5: version resolution of `setup.py` scans the lines for the first one
containing `__version__ =`; when no line contains the marker the resolved
version is exactly `"0.0.0"`, and when the first marker line has a unique
`=` the resolved version is everything after that `=`, stripped of
surrounding whitespace and then of quote characters.  (On a line with
several `=` the source takes the part after the last one, which coincides
with the claim whenever the `=` of the marker is the only one.) -/
theorem claim_C5 (lines : List String) :
    ((∀ l ∈ lines, hasSub versionMarker.data l.data = false) →
      resolveVersion lines = "0.0.0")
    ∧ (∀ pre post : List Char,
        lines.find? (fun l => hasSub versionMarker.data l.data)
          = some (String.mk (pre ++ '=' :: post)) →
        '=' ∉ pre → '=' ∉ post →
        resolveVersion lines
          = String.mk (stripEnds quoteChars (stripEnds wsChars post))) := by
  constructor
  · intro h
    have hf : lines.find? (fun l => hasSub versionMarker.data l.data) = none := by
      rw [List.find?_eq_none]
      intro l hl
      simp [h l hl]
    simp [resolveVersion, hf]
  · intro pre post hf h1 h2
    simp only [resolveVersion, hf]
    rw [splitOnChar_split '=' pre post h1 h2]
    rfl

theorem claim_C5_witness :
    resolveVersion ["# PyPO setup", "required = 0"] = "0.0.0"
    ∧ resolveVersion ["# PyPO", versionLine, "required = 0"] = "2.4.1" := by
  constructor
  · exact (claim_C5 _).1 (by decide)
  · have h := (claim_C5 ["# PyPO", versionLine, "required = 0"]).2
      "__version__ ".data
      (" " ++ String.mk [sqChar] ++ "2.4.1" ++ String.mk [sqChar]).data
      (by decide) (by decide) (by decide)
    exact h.trans (by decide)

/-- C6: for a record whose `gridsize` is `(a, b)`, `generateGrid` computes
the point count `a * b`, invokes the engine's `generateGrid` entry point
once, and returns a `reflGrids` whose seven arrays each have exactly
`a * b` elements. -/
theorem claim_C6 (eng : Engine) (rec : ReflDict) (transform spheric : Bool)
    (a b : Nat) (h : rec.gridsize = some (a, b)) :
    ∃ g : reflGrids,
      generateGrid eng rec transform spheric = (.ok g, ["generateGrid"])
      ∧ g.x.length = a * b ∧ g.y.length = a * b ∧ g.z.length = a * b
      ∧ g.nx.length = a * b ∧ g.ny.length = a * b ∧ g.nz.length = a * b
      ∧ g.area.length = a * b := by
  refine ⟨creflToObj (fillContainer eng rec transform spheric (a * b)) (a, b),
    ?_, ?_, ?_, ?_, ?_, ?_, ?_, ?_⟩
  · simp [generateGrid, h]
  all_goals simp [creflToObj, fillContainer]

theorem claim_C6_witness :
    recGrid45.gridsize = some (4, 5)
    ∧ ∃ g : reflGrids,
        generateGrid engZero recGrid45 true true = (.ok g, ["generateGrid"])
        ∧ g.x.length = 4 * 5 ∧ g.y.length = 4 * 5 ∧ g.z.length = 4 * 5
        ∧ g.nx.length = 4 * 5 ∧ g.ny.length = 4 * 5 ∧ g.nz.length = 4 * 5
        ∧ g.area.length = 4 * 5 :=
  ⟨rfl, claim_C6 engZero recGrid45 true true 4 5 rfl⟩

theorem resInit_default (args : List NpArray) :
    resInit none args = resInit (some "EH") args := rfl

theorem resInit_eval_EH (s0 s1 : Nat) (rest : List Nat) (e0 : List Nat → ℂ)
    (a1 a2 a3 a4 a5 : NpArray) :
    resInit (some "EH") [⟨s0 :: s1 :: rest, e0⟩, a1, a2, a3, a4, a5]
      = .ok ⟨"EH", ehLabels, s0 :: s1 :: rest, s0 * s1,
          [("Ex", ⟨s0 :: s1 :: rest, e0⟩), ("Ey", a1), ("Ez", a2),
           ("Hx", a3), ("Hy", a4), ("Hz", a5)]⟩ := rfl

theorem resInit_eval_JM (s0 s1 : Nat) (rest : List Nat) (e0 : List Nat → ℂ)
    (a1 a2 a3 a4 a5 : NpArray) :
    resInit (some "JM") [⟨s0 :: s1 :: rest, e0⟩, a1, a2, a3, a4, a5]
      = .ok ⟨"JM", jmLabels, s0 :: s1 :: rest, s0 * s1,
          [("Jx", ⟨s0 :: s1 :: rest, e0⟩), ("Jy", a1), ("Jz", a2),
           ("Mx", a3), ("My", a4), ("Mz", a5)]⟩ := rfl

theorem resT_eval_EH (sh : List Nat) (sz : Nat) (b0 b1 b2 b3 b4 b5 : NpArray) :
    resT ⟨"EH", ehLabels, sh, sz,
        [("Ex", b0), ("Ey", b1), ("Ez", b2), ("Hx", b3), ("Hy", b4), ("Hz", b5)]⟩
      = .ok ⟨"EH", ehLabels, sh, sz,
        [("Ex", npT b0), ("Ey", npT b1), ("Ez", npT b2),
         ("Hx", npT b3), ("Hy", npT b4), ("Hz", npT b5)]⟩ := rfl

theorem resT_eval_JM (sh : List Nat) (sz : Nat) (b0 b1 b2 b3 b4 b5 : NpArray) :
    resT ⟨"JM", jmLabels, sh, sz,
        [("Jx", b0), ("Jy", b1), ("Jz", b2), ("Mx", b3), ("My", b4), ("Mz", b5)]⟩
      = .ok ⟨"JM", jmLabels, sh, sz,
        [("Jx", npT b0), ("Jy", npT b1), ("Jz", npT b2),
         ("Mx", npT b3), ("My", npT b4), ("Mz", npT b5)]⟩ := rfl

theorem resH_eval_EH (sh : List Nat) (sz : Nat) (b0 b1 b2 b3 b4 b5 : NpArray) :
    resH ⟨"EH", ehLabels, sh, sz,
        [("Ex", b0), ("Ey", b1), ("Ez", b2), ("Hx", b3), ("Hy", b4), ("Hz", b5)]⟩
      = .ok ⟨"EH", ehLabels, sh, sz,
        [("Ex", npH b0), ("Ey", npH b1), ("Ez", npH b2),
         ("Hx", npH b3), ("Hy", npH b4), ("Hz", npH b5)]⟩ := rfl

theorem resH_eval_JM (sh : List Nat) (sz : Nat) (b0 b1 b2 b3 b4 b5 : NpArray) :
    resH ⟨"JM", jmLabels, sh, sz,
        [("Jx", b0), ("Jy", b1), ("Jz", b2), ("Mx", b3), ("My", b4), ("Mz", b5)]⟩
      = .ok ⟨"JM", jmLabels, sh, sz,
        [("Jx", npH b0), ("Jy", npH b1), ("Jz", npH b2),
         ("Mx", npH b3), ("My", npH b4), ("Mz", npH b5)]⟩ := rfl

theorem pyListGet_oob {α : Type} (l : List α) (i : ℤ)
    (h : i < -(l.length : ℤ) ∨ (l.length : ℤ) ≤ i) : pyListGet l i = none := by
  unfold pyListGet pyIdx
  split_ifs <;> first | rfl | omega

/-- C4 (amended): positional access (get or set) on a six-component
container succeeds for every index in the Python-valid range -6..5
(negative indices count from the end), and fails for every index outside
that range with an `IndexError` naming the offending index.  The original
claim, that every index outside 0..5 fails, is refuted by the negative
indices (see the counterexample). -/
theorem claim_C4 (rt : Option String)
    (hrt : rt = none ∨ rt = some "EH" ∨ rt = some "JM")
    (s0 s1 : Nat) (rest : List Nat) (e0 : List Nat → ℂ)
    (a1 a2 a3 a4 a5 : NpArray) (c : resContainer) (w : NpArray)
    (hc : resInit rt [⟨s0 :: s1 :: rest, e0⟩, a1, a2, a3, a4, a5] = .ok c)
    (i : ℤ) :
    ((-6 ≤ i ∧ i ≤ 5) →
      (∃ v, resGetitem c i = .ok v) ∧ (∃ c2, resSetitem c i w = .ok c2))
    ∧ ((i < -6 ∨ 5 < i) →
      resGetitem c i = .error (.indexError ("Index out of range: " ++ toString i))
      ∧ resSetitem c i w
          = .error (.indexError ("Index out of range: " ++ toString i))) := by
  rcases hrt with rfl | rfl | rfl
  · rw [resInit_default, resInit_eval_EH] at hc
    cases hc
    constructor
    · rintro ⟨hlo, hhi⟩
      interval_cases i <;> exact ⟨⟨_, rfl⟩, ⟨_, rfl⟩⟩
    · intro h
      have hn : pyListGet ehLabels i = none :=
        pyListGet_oob _ _ (by simp [ehLabels]; omega)
      exact ⟨by simp [resGetitem, hn], by simp [resSetitem, hn]⟩
  · rw [resInit_eval_EH] at hc
    cases hc
    constructor
    · rintro ⟨hlo, hhi⟩
      interval_cases i <;> exact ⟨⟨_, rfl⟩, ⟨_, rfl⟩⟩
    · intro h
      have hn : pyListGet ehLabels i = none :=
        pyListGet_oob _ _ (by simp [ehLabels]; omega)
      exact ⟨by simp [resGetitem, hn], by simp [resSetitem, hn]⟩
  · rw [resInit_eval_JM] at hc
    cases hc
    constructor
    · rintro ⟨hlo, hhi⟩
      interval_cases i <;> exact ⟨⟨_, rfl⟩, ⟨_, rfl⟩⟩
    · intro h
      have hn : pyListGet jmLabels i = none :=
        pyListGet_oob _ _ (by simp [jmLabels]; omega)
      exact ⟨by simp [resGetitem, hn], by simp [resSetitem, hn]⟩

/-- C4 counterexample: on the container built from six distinct arrays,
the index -1 lies outside 0..5 but positional access succeeds (returning
the last component) instead of failing with an `IndexError`. -/
theorem claim_C4_cex :
    resInit (some "EH") [cexArr 0, cexArr 1, cexArr 2, cexArr 3, cexArr 4, cexArr 5]
      = .ok cexCont
    ∧ resGetitem cexCont (-1) = .ok (cexArr 5) := ⟨rfl, rfl⟩

theorem claim_C4_witness :
    (∃ v, resGetitem cexCont 2 = .ok v)
    ∧ resGetitem cexCont 6
        = .error (.indexError ("Index out of range: " ++ toString (6 : ℤ)))
    ∧ resSetitem cexCont 6 (cexArr 7)
        = .error (.indexError ("Index out of range: " ++ toString (6 : ℤ))) := by
  have h2 := claim_C4 (some "EH") (Or.inr (Or.inl rfl)) 1 1 []
    (fun _ => ((0 : ℕ) : ℂ)) (cexArr 1) (cexArr 2) (cexArr 3) (cexArr 4)
    (cexArr 5) cexCont (cexArr 7) rfl 2
  have h6 := claim_C4 (some "EH") (Or.inr (Or.inl rfl)) 1 1 []
    (fun _ => ((0 : ℕ) : ℂ)) (cexArr 1) (cexArr 2) (cexArr 3) (cexArr 4)
    (cexArr 5) cexCont (cexArr 7) rfl 6
  exact ⟨(h2.1 (by decide)).1, (h6.2 (by decide)).1, (h6.2 (by decide)).2⟩

/-- C7: on a container built by the six-argument constructor, transpose and
Hermitian transpose both return the (mutated) container, and applying
either operation twice restores every component to its original array:
`T(T(x)) == x` and `H(H(x)) == x`. -/
theorem claim_C7 (rt : Option String)
    (hrt : rt = none ∨ rt = some "EH" ∨ rt = some "JM")
    (s0 s1 : Nat) (rest : List Nat) (e0 : List Nat → ℂ)
    (a1 a2 a3 a4 a5 : NpArray) (c : resContainer)
    (hc : resInit rt [⟨s0 :: s1 :: rest, e0⟩, a1, a2, a3, a4, a5] = .ok c) :
    (∃ cT, resT c = .ok cT ∧ resT cT = .ok c)
    ∧ (∃ cH, resH c = .ok cH ∧ resH cH = .ok c) := by
  rcases hrt with rfl | rfl | rfl
  · rw [resInit_default, resInit_eval_EH] at hc
    cases hc
    refine ⟨⟨_, resT_eval_EH _ _ _ _ _ _ _ _, ?_⟩,
      ⟨_, resH_eval_EH _ _ _ _ _ _ _ _, ?_⟩⟩
    · rw [resT_eval_EH]
      simp [npT_npT]
    · rw [resH_eval_EH]
      simp [npH_npH]
  · rw [resInit_eval_EH] at hc
    cases hc
    refine ⟨⟨_, resT_eval_EH _ _ _ _ _ _ _ _, ?_⟩,
      ⟨_, resH_eval_EH _ _ _ _ _ _ _ _, ?_⟩⟩
    · rw [resT_eval_EH]
      simp [npT_npT]
    · rw [resH_eval_EH]
      simp [npH_npH]
  · rw [resInit_eval_JM] at hc
    cases hc
    refine ⟨⟨_, resT_eval_JM _ _ _ _ _ _ _ _, ?_⟩,
      ⟨_, resH_eval_JM _ _ _ _ _ _ _ _, ?_⟩⟩
    · rw [resT_eval_JM]
      simp [npT_npT]
    · rw [resH_eval_JM]
      simp [npH_npH]

theorem claim_C7_witness :
    resInit (some "EH") [cexArr 0, cexArr 1, cexArr 2, cexArr 3, cexArr 4, cexArr 5]
      = .ok cexCont
    ∧ ((∃ cT, resT cexCont = .ok cT ∧ resT cT = .ok cexCont)
      ∧ (∃ cH, resH cexCont = .ok cH ∧ resH cH = .ok cexCont)) :=
  ⟨rfl, claim_C7 (some "EH") (Or.inr (Or.inl rfl)) 1 1 []
    (fun _ => ((0 : ℕ) : ℂ)) (cexArr 1) (cexArr 2) (cexArr 3) (cexArr 4)
    (cexArr 5) cexCont rfl⟩

/-- C10: the constructor records `shape`/`size` solely from the first
argument (`size = shape[0] * shape[1]`); with a two-dimensional first array
construction succeeds whatever the shapes of the other five arrays (the
co-shape invariant is not checked), and with a first array of fewer than
two dimensions it fails with `IndexError`. -/
theorem claim_C10 (rt : Option String)
    (hrt : rt = none ∨ rt = some "EH" ∨ rt = some "JM") :
    (∀ (s0 s1 : Nat) (e0 : List Nat → ℂ) (a1 a2 a3 a4 a5 : NpArray),
      ∃ c, resInit rt [⟨[s0, s1], e0⟩, a1, a2, a3, a4, a5] = .ok c
        ∧ c.shape = [s0, s1] ∧ c.size = s0 * s1)
    ∧ (∀ (e0 : List Nat → ℂ) (a1 a2 a3 a4 a5 : NpArray),
      resInit rt [⟨[], e0⟩, a1, a2, a3, a4, a5]
        = .error (.indexError "tuple index out of range"))
    ∧ (∀ (s0 : Nat) (e0 : List Nat → ℂ) (a1 a2 a3 a4 a5 : NpArray),
      resInit rt [⟨[s0], e0⟩, a1, a2, a3, a4, a5]
        = .error (.indexError "tuple index out of range")) := by
  rcases hrt with rfl | rfl | rfl <;>
    exact ⟨fun s0 s1 e0 a1 a2 a3 a4 a5 => ⟨_, rfl, rfl, rfl⟩,
      fun e0 a1 a2 a3 a4 a5 => rfl,
      fun s0 e0 a1 a2 a3 a4 a5 => rfl⟩

theorem claim_C10_witness :
    (∃ c, resInit (some "JM")
        [⟨[2, 3], fun _ => 0⟩, ⟨[7], fun _ => 0⟩, ⟨[], fun _ => 0⟩,
         ⟨[5, 5, 5], fun _ => 0⟩, ⟨[1], fun _ => 0⟩, ⟨[4, 4], fun _ => 0⟩]
        = .ok c ∧ c.shape = [2, 3] ∧ c.size = 2 * 3)
    ∧ resInit (some "JM")
        [⟨[9], fun _ => 0⟩, ⟨[2, 2], fun _ => 0⟩, ⟨[2, 2], fun _ => 0⟩,
         ⟨[2, 2], fun _ => 0⟩, ⟨[2, 2], fun _ => 0⟩, ⟨[2, 2], fun _ => 0⟩]
        = .error (.indexError "tuple index out of range") := by
  have h := claim_C10 (some "JM") (Or.inr (Or.inr rfl))
  exact ⟨h.1 2 3 _ _ _ _ _ _, h.2.2 9 _ _ _ _ _ _⟩
